import Mathlib

/-!
Shallow embedding of the PMDS performance-management application
(Django project, apps `performance` and `user_management`).

Modelling conventions:
- Django model instances become Lean structures holding only the fields the
  verified properties touch; `DecimalField` values become exact rationals
  (`ℚ`), nullable fields become `Option`, status/role strings stay `String`.
- Python truthiness of nullable fields is modelled explicitly
  (`truthyOptStr`, `truthyOptRat`): `None`, the empty string and the zero
  decimal are falsy.
- A view function becomes a pure function from the request context
  (user, object, whether the request is a POST, the current time) to a
  `ViewResult`: the HTTP response kind, the flash messages added, and the
  stored object row after the request.  Raising `PermissionDenied` or
  `AttributeError` is an explicit response constructor.  Python attribute
  lookup on the `PerformanceAgreement` class is modelled by an environment
  `String → Option String`; the actual environment is
  `PerformanceAgreement.classAttr`, built from the constants the model
  defines, and a lookup that returns `none` raises `AttributeError`.
- `performance/views.py` (the monolithic module) is shadowed by the
  `performance/views/` package of the same import name, so the routed
  handlers are the package ones; both copies are embedded, with suffixes
  `_views_module` (monolithic `views.py`) and `_pkg`
  (`views/performance_agreement_views.py`).
- Side effects not touched by the claims (notification dispatch inside the
  agreement views, audit logging, PDF rendering) are not modelled; flash
  texts that interpolate runtime values are abbreviated.
-/

/-- Python truthiness of an optional string: `None` and the empty string
are falsy. -/
def truthyOptStr : Option String → Bool
  | some s => s != ""
  | none => false

/-- Python truthiness of an optional decimal: `None` and zero are falsy. -/
def truthyOptRat : Option ℚ → Bool
  | some q => q != 0
  | none => false

/-- Exact rational value of the Python float literal `0.01`
(binary64 nearest to 1/100), used by `validate_weightings`:
`0.01 = 5764607523034235 / 2^59`, slightly greater than `1/100`. -/
def float_0_01 : ℚ := 5764607523034235 / 576460752303423488

/-- The `CustomUser` model (performance/models.py).  Only the fields the
verified properties read are kept; `manager` is the primary key of the
linked manager row (`related_name='subordinates'`). -/
structure CustomUser where
  id : Nat
  username : String
  first_name : String
  last_name : String
  persal_number : Option String
  role : String
  is_superuser : Bool
  is_authenticated : Bool
  manager : Option Nat
  deriving Repr, DecidableEq

namespace CustomUser

/-- Role constant `CustomUser.EMPLOYEE`. -/
def EMPLOYEE : String := "EMPLOYEE"

/-- Role constant `CustomUser.MANAGER`. -/
def MANAGER : String := "MANAGER"

/-- Role constant `CustomUser.HR`. -/
def HR : String := "HR"

/-- Role constant `CustomUser.APPROVER`. -/
def APPROVER : String := "APPROVER"

/-- Django `AbstractUser.get_full_name`: first and last name joined by a
space, stripped. -/
def get_full_name (u : CustomUser) : String :=
  (u.first_name ++ " " ++ u.last_name).trim

/-- `CustomUser.__str__`: the full name followed by, in parentheses, the
persal number if it is truthy and otherwise the username. -/
def str (u : CustomUser) : String :=
  u.get_full_name ++ " (" ++
    (if truthyOptStr u.persal_number then u.persal_number.getD u.username
     else u.username) ++ ")"

end CustomUser

/-- The `KeyResponsibilityArea` model: a weighted duty of an agreement.
`weighting` is a `DecimalField` out of 100; the three rating fields are
nullable decimals out of 4. -/
structure KeyResponsibilityArea where
  weighting : ℚ
  employee_rating : Option ℚ
  supervisor_rating : Option ℚ
  agreed_rating : Option ℚ
  deriving Repr, DecidableEq

namespace KeyResponsibilityArea

/-- `KeyResponsibilityArea.calculate_weighted_score`: if the agreed rating
is truthy, `weighting * agreed_rating / 100`, else `0`. -/
def calculate_weighted_score (kra : KeyResponsibilityArea) : ℚ :=
  if truthyOptRat kra.agreed_rating then
    kra.weighting * kra.agreed_rating.getD 0 / 100
  else 0

end KeyResponsibilityArea

/-- The `PerformanceAgreement` model.  `employee`, `supervisor` and
`approver` are the linked user rows (Django instance equality is primary
key equality); the remaining fields are the workflow status and the
timestamp columns the embedded transitions write. -/
structure PerformanceAgreement where
  id : Nat
  employee : CustomUser
  supervisor : Option CustomUser
  approver : Option CustomUser
  status : String
  employee_submitted_date : Option Nat
  manager_approval_date : Option Nat
  completion_date : Option Nat
  deriving Repr, DecidableEq

namespace PerformanceAgreement

/-- Status constant `PerformanceAgreement.DRAFT`. -/
def DRAFT : String := "DRAFT"

/-- Status constant `PerformanceAgreement.PENDING_EMPLOYEE_RATING`. -/
def PENDING_EMPLOYEE_RATING : String := "PENDING_EMPLOYEE_RATING"

/-- Status constant `PerformanceAgreement.PENDING_SUPERVISOR_RATING`. -/
def PENDING_SUPERVISOR_RATING : String := "PENDING_SUPERVISOR_RATING"

/-- Status constant `PerformanceAgreement.PENDING_SUPERVISOR_SIGNOFF`. -/
def PENDING_SUPERVISOR_SIGNOFF : String := "PENDING_SUPERVISOR_SIGNOFF"

/-- Status constant `PerformanceAgreement.PENDING_MANAGER_APPROVAL`. -/
def PENDING_MANAGER_APPROVAL : String := "PENDING_MANAGER_APPROVAL"

/-- Status constant `PerformanceAgreement.PENDING_HR_VERIFICATION`. -/
def PENDING_HR_VERIFICATION : String := "PENDING_HR_VERIFICATION"

/-- Status constant `PerformanceAgreement.COMPLETED`. -/
def COMPLETED : String := "COMPLETED"

/-- Status constant `PerformanceAgreement.REJECTED`. -/
def REJECTED : String := "REJECTED"

/-- Status constant `PerformanceAgreement.RETURNED_FOR_CORRECTION`. -/
def RETURNED_FOR_CORRECTION : String := "RETURNED_FOR_CORRECTION"

/-- Python class-attribute lookup on `PerformanceAgreement`: the nine
status constants the model defines resolve to their values, any other
name raises `AttributeError` (modelled as `none`).  In particular
`PENDING_AGREEMENT` and `PENDING_SUPERVISOR_REVIEW` are not defined. -/
def classAttr (name : String) : Option String :=
  if name = "DRAFT" then some DRAFT
  else if name = "PENDING_EMPLOYEE_RATING" then some PENDING_EMPLOYEE_RATING
  else if name = "PENDING_SUPERVISOR_RATING" then some PENDING_SUPERVISOR_RATING
  else if name = "PENDING_SUPERVISOR_SIGNOFF" then some PENDING_SUPERVISOR_SIGNOFF
  else if name = "PENDING_MANAGER_APPROVAL" then some PENDING_MANAGER_APPROVAL
  else if name = "PENDING_HR_VERIFICATION" then some PENDING_HR_VERIFICATION
  else if name = "COMPLETED" then some COMPLETED
  else if name = "REJECTED" then some REJECTED
  else if name = "RETURNED_FOR_CORRECTION" then some RETURNED_FOR_CORRECTION
  else none

/-- `PerformanceAgreement.validate_weightings`: true when the absolute
difference between the sum of the KRA weightings and 100 is below the
float literal `0.01`.  The agreement's related KRA rows are passed as a
list. -/
def validate_weightings (kras : List KeyResponsibilityArea) : Bool :=
  decide (|(kras.map (fun kra => kra.weighting)).sum - 100| < float_0_01)

/-- `PerformanceAgreement.can_delete`: the model-level delete rule —
requester role `HR` and status `DRAFT` or `REJECTED`. -/
def can_delete (a : PerformanceAgreement) (user : CustomUser) : Bool :=
  user.role == "HR" && (a.status == DRAFT || a.status == REJECTED)

end PerformanceAgreement

/-- The `MidYearReview` model; only the status drives `can_edit`. -/
structure MidYearReview where
  status : String
  deriving Repr, DecidableEq

namespace MidYearReview

/-- `MidYearReview.can_edit` property: editable while not `COMPLETED`. -/
def can_edit (r : MidYearReview) : Bool :=
  r.status != "COMPLETED"

end MidYearReview

/-- True when the user is the agreement's supervisor (Django instance
equality on the nullable `supervisor` relation, true only when the
relation is set and the primary keys match). -/
def isSupervisorOf (user : CustomUser) (agreement : PerformanceAgreement) : Bool :=
  match agreement.supervisor with
  | some s => s.id == user.id
  | none => false

/-- True when the user is the agreement's approver. -/
def isApproverOf (user : CustomUser) (agreement : PerformanceAgreement) : Bool :=
  match agreement.approver with
  | some ap => ap.id == user.id
  | none => false

/-- `permissions.can_update_performance_agreement`: superuser and HR may
always update; the employee may update their own agreement in `DRAFT`;
a manager may update a subordinate's agreement in `DRAFT` or
`PENDING_MANAGER_APPROVAL` (`agreement.employee in user.subordinates.all()`
holds exactly when the employee's `manager` key is this user); the
supervisor may update in `PENDING_SUPERVISOR_RATING` or
`PENDING_SUPERVISOR_SIGNOFF`. -/
def can_update_performance_agreement (user : CustomUser)
    (agreement : PerformanceAgreement) : Bool :=
  if !user.is_authenticated then false
  else if user.is_superuser then true
  else if user.role == CustomUser.HR then true
  else if agreement.employee.id == user.id &&
      agreement.status == PerformanceAgreement.DRAFT then true
  else if user.role == CustomUser.MANAGER &&
      agreement.employee.manager == some user.id &&
      (agreement.status == PerformanceAgreement.DRAFT ||
       agreement.status == PerformanceAgreement.PENDING_MANAGER_APPROVAL) then true
  else if isSupervisorOf user agreement &&
      (agreement.status == PerformanceAgreement.PENDING_SUPERVISOR_RATING ||
       agreement.status == PerformanceAgreement.PENDING_SUPERVISOR_SIGNOFF) then true
  else false

/-- `permissions.can_delete_performance_agreement`: superuser or HR may
delete any agreement whose status is not `COMPLETED`; the employee may
delete their own agreement in `DRAFT`. -/
def can_delete_performance_agreement (user : CustomUser)
    (agreement : PerformanceAgreement) : Bool :=
  if !user.is_authenticated then false
  else if user.is_superuser &&
      agreement.status != PerformanceAgreement.COMPLETED then true
  else if user.role == CustomUser.HR &&
      agreement.status != PerformanceAgreement.COMPLETED then true
  else if agreement.employee.id == user.id &&
      agreement.status == PerformanceAgreement.DRAFT then true
  else false

/-- Outcome kind of an embedded request: a redirect to the login page
(`login_required` on an anonymous user), a named redirect, a rendered
template, a `PermissionDenied` raised by a permission decorator (carrying
the permission type), or an uncaught `AttributeError` from looking up a
missing class attribute (carrying the attribute name). -/
inductive HttpResponse where
  | loginRedirect : HttpResponse
  | redirect (target : String) : HttpResponse
  | rendered (template : String) : HttpResponse
  | permissionDenied (permission_type : String) : HttpResponse
  | attributeError (attr : String) : HttpResponse
  deriving Repr, DecidableEq

/-- Result of a request against a single agreement: response kind, flash
messages added (level, text), and the stored agreement row afterwards. -/
structure ViewResult where
  response : HttpResponse
  flashes : List (String × String)
  agreement : PerformanceAgreement
  deriving Repr, DecidableEq

/-- Result of a request against the agreement table: response kind, flash
messages, and the stored table afterwards. -/
structure DeleteResult where
  response : HttpResponse
  flashes : List (String × String)
  db : List PerformanceAgreement
  deriving Repr, DecidableEq

/-- `performance_agreement_delete` of the monolithic `views.py` (shadowed
by the package and therefore unrouted): requester must have role `HR` and
the status must be `DRAFT` or `REJECTED`, otherwise an error flash and a
redirect to the list page; on a POST that passes both guards the row is
deleted. -/
def performance_agreement_delete_views_module (user : CustomUser)
    (agreement : PerformanceAgreement) (isPost : Bool)
    (db : List PerformanceAgreement) : DeleteResult :=
  if !user.is_authenticated then ⟨.loginRedirect, [], db⟩
  else if user.role != "HR" then
    ⟨.redirect "performance_agreement_list",
      [("error", "Only HR administrators can delete performance agreements.")], db⟩
  else if !(agreement.status == PerformanceAgreement.DRAFT ||
            agreement.status == PerformanceAgreement.REJECTED) then
    ⟨.redirect "performance_agreement_list",
      [("error", "Cannot delete agreements that have been submitted or approved.")], db⟩
  else if isPost then
    ⟨.redirect "performance_agreement_list",
      [("success", "Performance agreement deleted.")],
      db.filter (fun row => row.id != agreement.id)⟩
  else ⟨.redirect "performance_agreement_list", [], db⟩

/-- `performance_agreement_delete` of the routed view package
(`views/performance_agreement_views.py`), guarded by
`performance_agreement_permission('delete')`: the decorator raises
`PermissionDenied` unless `can_delete_performance_agreement` allows the
requester; a POST then deletes the row, a GET renders the confirmation
page. -/
def performance_agreement_delete_pkg (user : CustomUser)
    (agreement : PerformanceAgreement) (isPost : Bool)
    (db : List PerformanceAgreement) : DeleteResult :=
  if !user.is_authenticated then ⟨.loginRedirect, [], db⟩
  else if !can_delete_performance_agreement user agreement then
    ⟨.permissionDenied "delete", [], db⟩
  else if isPost then
    ⟨.redirect "performance_agreement_list",
      [("success", "Performance Agreement deleted successfully!")],
      db.filter (fun row => row.id != agreement.id)⟩
  else ⟨.rendered "performance/confirm_delete.html", [], db⟩

/-- `performance_agreement_submit` of the monolithic `views.py`: on a POST
by the agreement's employee it assigns the class attribute named
`PENDING_AGREEMENT` to `status`, stamps `employee_submitted_date` and
saves; any other request redirects to the detail page.  The attribute is
looked up in the environment `env` and a missing attribute raises
`AttributeError` before the assignment, leaving the row untouched. -/
def performance_agreement_submit_views_module (env : String → Option String)
    (user : CustomUser) (agreement : PerformanceAgreement) (isPost : Bool)
    (now : Nat) : ViewResult :=
  if !user.is_authenticated then ⟨.loginRedirect, [], agreement⟩
  else if isPost then
    if agreement.employee.id != user.id then
      ⟨.redirect "performance_agreement_detail",
        [("error", "You do not have permission to submit this agreement.")], agreement⟩
    else
      match env "PENDING_AGREEMENT" with
      | none => ⟨.attributeError "PENDING_AGREEMENT", [], agreement⟩
      | some v =>
        ⟨.redirect "performance_agreement_detail",
          [("success", "Performance agreement submitted for approval.")],
          { agreement with status := v, employee_submitted_date := some now }⟩
  else ⟨.redirect "performance_agreement_detail", [], agreement⟩

/-- `performance_agreement_submit` of the routed view package, guarded by
`performance_agreement_permission('update')`: requires status `DRAFT`
(else error flash and redirect), then assigns the class attribute named
`PENDING_SUPERVISOR_REVIEW` to `status` and saves.  The handler also sets
`submission_date`, which is not a column of the model, so the stored row
only changes in `status`.  A missing attribute raises `AttributeError`
before the assignment. -/
def performance_agreement_submit_pkg (env : String → Option String)
    (user : CustomUser) (agreement : PerformanceAgreement) (now : Nat) :
    ViewResult :=
  if !user.is_authenticated then ⟨.loginRedirect, [], agreement⟩
  else if !can_update_performance_agreement user agreement then
    ⟨.permissionDenied "update", [], agreement⟩
  else if agreement.status != PerformanceAgreement.DRAFT then
    ⟨.redirect "performance_agreement_detail",
      [("error", "This performance agreement cannot be submitted because it is not in draft status.")],
      agreement⟩
  else
    match env "PENDING_SUPERVISOR_REVIEW" with
    | none => ⟨.attributeError "PENDING_SUPERVISOR_REVIEW", [], agreement⟩
    | some v =>
      ⟨.redirect "performance_agreement_detail",
        [("success", "Performance Agreement submitted for supervisor review.")],
        { agreement with status := v }⟩

/-- `performance_agreement_approve` of the routed view package, guarded by
`performance_agreement_permission('update')`.  The first branch compares
the requester to the supervisor and, only then (Python short-circuit),
looks up the class attribute named `PENDING_SUPERVISOR_REVIEW` — a missing
attribute raises `AttributeError`.  The `elif` branch lets the approver or
an HR user complete an agreement in `PENDING_MANAGER_APPROVAL`, stamping
`manager_approval_date` and `completion_date`; every other request gets an
error flash and a redirect to the detail page.  The supervisor branch also
sets `supervisor_approval_date`, which is not a column of the model. -/
def performance_agreement_approve_pkg (env : String → Option String)
    (user : CustomUser) (agreement : PerformanceAgreement) (now : Nat) :
    ViewResult :=
  if !user.is_authenticated then ⟨.loginRedirect, [], agreement⟩
  else if !can_update_performance_agreement user agreement then
    ⟨.permissionDenied "update", [], agreement⟩
  else
    let elifBranch : ViewResult :=
      if (isApproverOf user agreement || user.role == CustomUser.HR) &&
          agreement.status == PerformanceAgreement.PENDING_MANAGER_APPROVAL then
        ⟨.redirect "performance_agreement_detail",
          [("success", "Performance Agreement approved successfully!")],
          { agreement with status := PerformanceAgreement.COMPLETED,
                           manager_approval_date := some now,
                           completion_date := some now }⟩
      else
        ⟨.redirect "performance_agreement_detail",
          [("error", "You are not authorized to approve this performance agreement.")],
          agreement⟩
    if isSupervisorOf user agreement then
      match env "PENDING_SUPERVISOR_REVIEW" with
      | none => ⟨.attributeError "PENDING_SUPERVISOR_REVIEW", [], agreement⟩
      | some v =>
        if agreement.status == v then
          ⟨.redirect "performance_agreement_detail",
            [("success", "Performance Agreement approved and sent for manager approval.")],
            { agreement with status := PerformanceAgreement.PENDING_MANAGER_APPROVAL }⟩
        else elifBranch
    else elifBranch

/-- The `Notification` model: a persisted per-user inbox row;
`email_sent` defaults to `False`. -/
structure Notification where
  id : Nat
  recipient : Nat
  notification_type : String
  title : String
  message : String
  related_object_type : Option String
  related_object_id : Option Nat
  email_sent : Bool
  deriving Repr, DecidableEq

/-- The `NotificationPreference` model: one row per user;
`email_notifications` defaults to `True`. -/
structure NotificationPreference where
  user : Nat
  email_notifications : Bool
  deriving Repr, DecidableEq

/-- Outcome of the `send_mail` call inside `notify_user`: delivery, or an
arbitrary raised exception carrying its text. -/
inductive EmailOutcome where
  | delivered : EmailOutcome
  | failed (err : String) : EmailOutcome
  deriving Repr, DecidableEq

/-- `notifications.notify_user`: creates a `Notification` row
(`email_sent` false), resolves the recipient's preference row — creating
one with default values when missing — and, when email notifications are
enabled, attempts the email: on success the row is saved again with
`email_sent` true, on any exception the error is only printed and the
function still returns the notification.  The preference row (or `none`
when the user has none) and the email outcome are inputs; the result is
the returned notification and the notification table afterwards. -/
def notify_user (user : CustomUser) (notification_type title message : String)
    (related_object_type : Option String) (related_object_id : Option Nat)
    (prefs : Option NotificationPreference) (email : EmailOutcome)
    (freshId : Nat) (db : List Notification) :
    Notification × List Notification :=
  let created : Notification :=
    { id := freshId, recipient := user.id, notification_type, title, message,
      related_object_type, related_object_id, email_sent := false }
  let notification_prefs : NotificationPreference :=
    match prefs with
    | some p => p
    | none => { user := user.id, email_notifications := true }
  if notification_prefs.email_notifications then
    match email with
    | .delivered =>
      let sent := { created with email_sent := true }
      (sent, db ++ [sent])
    | .failed _ => (created, db ++ [created])
  else (created, db ++ [created])

/-- The `ImprovementPlan` model: employee, optional supervisor and a
status in `DRAFT`, `IN_PROGRESS`, `COMPLETED`. -/
structure ImprovementPlan where
  id : Nat
  employee : Nat
  supervisor : Option Nat
  status : String
  deriving Repr, DecidableEq

/-- The filter of `get_or_create_current_plan`: plans of the employee
whose status is `DRAFT` or `IN_PROGRESS`. -/
def isActivePlanFor (employee : CustomUser) (p : ImprovementPlan) : Bool :=
  p.employee == employee.id &&
    (p.status == "DRAFT" || p.status == "IN_PROGRESS")

/-- The row `objects.create` builds in `get_or_create_current_plan`: a
fresh `DRAFT` plan for the employee, supervised by the employee's
manager. -/
def mkCurrentPlan (employee : CustomUser) (freshId : Nat) :
    ImprovementPlan :=
  { id := freshId, employee := employee.id,
    supervisor := employee.manager, status := "DRAFT" }

/-- `ImprovementPlan.get_or_create_current_plan`: take the first plan of
the employee with status `DRAFT` or `IN_PROGRESS`; when none exists,
create a `DRAFT` plan whose supervisor is the employee's manager.  The
table is kept in queryset order (`ordering = ['-created_at']`, newest
first), so `objects.create` puts the new row at the head and `.first()`
is the head of the filtered list. -/
def get_or_create_current_plan (db : List ImprovementPlan)
    (employee : CustomUser) (freshId : Nat) :
    ImprovementPlan × List ImprovementPlan :=
  match (db.filter (isActivePlanFor employee)).head? with
  | some current_plan => (current_plan, db)
  | none =>
    let current_plan : ImprovementPlan := mkCurrentPlan employee freshId
    (current_plan, current_plan :: db)

/-- Concrete KRA: weighting 60, agreed rating 3. -/
def kraSample : KeyResponsibilityArea :=
  { weighting := 60, employee_rating := none, supervisor_rating := none,
    agreed_rating := some 3 }

/-- Concrete KRA whose weighting is 100.01, so the weighting total misses
100 by exactly one hundredth. -/
def kraTolerance : KeyResponsibilityArea :=
  { weighting := 10001 / 100, employee_rating := none,
    supervisor_rating := none, agreed_rating := none }

/-- Concrete user without a persal number. -/
def userNoPersal : CustomUser :=
  { id := 1, username := "jdoe", first_name := "Test", last_name := "User",
    persal_number := none, role := "EMPLOYEE", is_superuser := false,
    is_authenticated := true, manager := none }

/-- Concrete user with persal number PER123. -/
def userWithPersal : CustomUser :=
  { id := 2, username := "asmith", first_name := "Alice",
    last_name := "Smith", persal_number := some "PER123",
    role := "EMPLOYEE", is_superuser := false, is_authenticated := true,
    manager := none }

/-- Concrete HR user. -/
def hrUser : CustomUser :=
  { id := 3, username := "hradmin", first_name := "Hope",
    last_name := "Radebe", persal_number := some "PER300", role := "HR",
    is_superuser := false, is_authenticated := true, manager := none }

/-- Concrete employee who owns the sample agreements; reports to the
supervisor with id 5. -/
def empOwner : CustomUser :=
  { id := 4, username := "owner", first_name := "Owen",
    last_name := "Naidoo", persal_number := some "PER400",
    role := "EMPLOYEE", is_superuser := false, is_authenticated := true,
    manager := some 5 }

/-- Concrete supervisor (role Manager) of `empOwner`. -/
def supUser : CustomUser :=
  { id := 5, username := "sup", first_name := "Sipho",
    last_name := "Dlamini", persal_number := some "PER500",
    role := "MANAGER", is_superuser := false, is_authenticated := true,
    manager := none }

/-- Concrete unrelated employee. -/
def otherUser : CustomUser :=
  { id := 6, username := "other", first_name := "Thandi",
    last_name := "Mokoena", persal_number := some "PER600",
    role := "EMPLOYEE", is_superuser := false, is_authenticated := true,
    manager := none }

/-- Concrete agreement of `empOwner` in `DRAFT`. -/
def aDraft : PerformanceAgreement :=
  { id := 10, employee := empOwner, supervisor := some supUser,
    approver := none, status := PerformanceAgreement.DRAFT,
    employee_submitted_date := none, manager_approval_date := none,
    completion_date := none }

/-- Concrete agreement of `empOwner` in `PENDING_EMPLOYEE_RATING`. -/
def aPendingER : PerformanceAgreement :=
  { id := 11, employee := empOwner, supervisor := some supUser,
    approver := none, status := PerformanceAgreement.PENDING_EMPLOYEE_RATING,
    employee_submitted_date := none, manager_approval_date := none,
    completion_date := none }

/-- Concrete agreement of `empOwner` in `PENDING_SUPERVISOR_RATING`. -/
def aPSR : PerformanceAgreement :=
  { id := 12, employee := empOwner, supervisor := some supUser,
    approver := none, status := PerformanceAgreement.PENDING_SUPERVISOR_RATING,
    employee_submitted_date := none, manager_approval_date := none,
    completion_date := none }

/-- Hypothetical class-attribute environment that additionally defines the
two names the submit handlers reference, with distinct values. -/
def env0 : String → Option String := fun name =>
  if name = "PENDING_AGREEMENT" then some "PENDING_AGREEMENT"
  else if name = "PENDING_SUPERVISOR_REVIEW" then some "PENDING_SUPERVISOR_REVIEW"
  else PerformanceAgreement.classAttr name

/-- C4: for every KRA whose agreed rating is set,
`calculate_weighted_score` returns weighting × agreed_rating / 100 in
exact rational arithmetic (when the rating is the falsy value 0 the code
takes the other branch, but 0 = weighting × 0 / 100); for every KRA whose
agreed rating is unset it returns 0. -/
theorem calculate_weighted_score_spec (kra : KeyResponsibilityArea) :
    (∀ a : ℚ, kra.agreed_rating = some a →
      kra.calculate_weighted_score = kra.weighting * a / 100) ∧
    (kra.agreed_rating = none → kra.calculate_weighted_score = 0) := by
  constructor
  · intro a ha
    unfold KeyResponsibilityArea.calculate_weighted_score
    rw [ha]
    by_cases h : a = 0
    · subst h
      simp [truthyOptRat]
    · simp [truthyOptRat, h]
  · intro ha
    unfold KeyResponsibilityArea.calculate_weighted_score
    rw [ha]
    simp [truthyOptRat]

/-- Witness for C4 at the sample KRA: weighting 60, agreed rating 3,
weighted score 60 × 3 / 100. -/
theorem calculate_weighted_score_spec_witness :
    kraSample.agreed_rating = some 3 ∧
    kraSample.calculate_weighted_score = kraSample.weighting * 3 / 100 :=
  ⟨rfl, (calculate_weighted_score_spec kraSample).1 3 rfl⟩

/-- C6: a mid-year review's `can_edit` is false exactly when its status is
COMPLETED, hence true in every other status (REJECTED included). -/
theorem can_edit_spec (r : MidYearReview) :
    r.can_edit = false ↔ r.status = "COMPLETED" := by
  unfold MidYearReview.can_edit
  simp

/-- C10 counterexample: the user model allows a null persal number, and
for such a user `__str__` falls back to the username — the concrete user
below renders with the username "jdoe" in the parentheses and embeds no
persal number, so the string representation does not embed the persal
number for every user. -/
theorem user_str_counterexample :
    userNoPersal.persal_number = none ∧
    CustomUser.str userNoPersal =
      userNoPersal.get_full_name ++ " (" ++ "jdoe" ++ ")" ∧
    ¬ ∃ p : String, userNoPersal.persal_number = some p ∧
        CustomUser.str userNoPersal =
          userNoPersal.get_full_name ++ " (" ++ p ++ ")" := by
  refine ⟨rfl, rfl, ?_⟩
  rintro ⟨p, hp, -⟩
  exact Option.noConfusion hp

/-- C10 amended: for every user whose persal number is set and nonempty,
`__str__` is "full name (persal number)"; when the persal number is unset
or empty the username appears in the parentheses instead. -/
theorem user_str_amended (u : CustomUser) :
    (∀ p : String, u.persal_number = some p → p ≠ "" →
      CustomUser.str u = u.get_full_name ++ " (" ++ p ++ ")") ∧
    (truthyOptStr u.persal_number = false →
      CustomUser.str u = u.get_full_name ++ " (" ++ u.username ++ ")") := by
  constructor
  · intro p hp hne
    unfold CustomUser.str
    rw [hp]
    simp [truthyOptStr, hne]
  · intro h
    unfold CustomUser.str
    rw [h]
    simp

/-- Witness for the amended C10 at a user with persal number PER123. -/
theorem user_str_amended_witness :
    userWithPersal.persal_number = some "PER123" ∧
    ("PER123" : String) ≠ "" ∧
    CustomUser.str userWithPersal =
      userWithPersal.get_full_name ++ " (" ++ "PER123" ++ ")" :=
  ⟨rfl, by decide,
    (user_str_amended userWithPersal).1 "PER123" rfl (by decide)⟩

/-- C5 counterexample: the code compares the decimal sum with the float
literal `0.01`, whose exact value is slightly greater than 1/100, so an
agreement whose single KRA weighs 100.01 passes `validate_weightings`
although its weighting total differs from 100 by exactly 0.01, not by
strictly less than 0.01. -/
theorem validate_weightings_counterexample :
    PerformanceAgreement.validate_weightings [kraTolerance] = true ∧
    ¬ (|(([kraTolerance].map (fun kra => kra.weighting)).sum : ℚ) - 100|
        < 1 / 100) := by
  constructor
  · unfold PerformanceAgreement.validate_weightings
    rw [decide_eq_true_iff]
    simp only [List.map_cons, List.map_nil, List.sum_cons, List.sum_nil,
      add_zero]
    rw [show (kraTolerance.weighting - 100 : ℚ) = 1 / 100 by
      norm_num [kraTolerance]]
    rw [abs_of_pos (by norm_num)]
    norm_num [float_0_01]
  · simp only [List.map_cons, List.map_nil, List.sum_cons, List.sum_nil,
      add_zero]
    rw [show (kraTolerance.weighting - 100 : ℚ) = 1 / 100 by
      norm_num [kraTolerance]]
    rw [abs_of_pos (by norm_num)]
    norm_num

/-- C5 amended: `validate_weightings` is true exactly when the weighting
total differs from 100 by less than the binary64 value of the literal
`0.01`, which lies strictly between 1/100 and 1/100 + 2⁻⁵⁹; the check is
not exact equality — any total within 0.01 of 100, bound included, passes
— and an agreement with no KRAs (total 0) fails. -/
theorem validate_weightings_amended :
    (∀ kras : List KeyResponsibilityArea,
      PerformanceAgreement.validate_weightings kras = true ↔
        |(kras.map (fun kra => kra.weighting)).sum - 100| < float_0_01) ∧
    (1 / 100 : ℚ) < float_0_01 ∧
    float_0_01 < 1 / 100 + 1 / 2 ^ 59 ∧
    PerformanceAgreement.validate_weightings [] = false ∧
    (∀ kras : List KeyResponsibilityArea,
      |(kras.map (fun kra => kra.weighting)).sum - 100| ≤ 1 / 100 →
      PerformanceAgreement.validate_weightings kras = true) := by
  refine ⟨?_, by norm_num [float_0_01], by norm_num [float_0_01], ?_, ?_⟩
  · intro kras
    unfold PerformanceAgreement.validate_weightings
    exact decide_eq_true_iff
  · unfold PerformanceAgreement.validate_weightings
    rw [decide_eq_false_iff_not]
    simp only [List.map_nil, List.sum_nil, zero_sub, abs_neg]
    rw [abs_of_pos (by norm_num : (0:ℚ) < 100)]
    norm_num [float_0_01]
  · intro kras h
    unfold PerformanceAgreement.validate_weightings
    rw [decide_eq_true_iff]
    exact lt_of_le_of_lt h (by norm_num [float_0_01])

/-- Witness for the amended C5 at the single 100.01 weighting: its total
is within 0.01 of 100 and the validation passes. -/
theorem validate_weightings_amended_witness :
    (|(([kraTolerance].map (fun kra => kra.weighting)).sum : ℚ) - 100|
      ≤ 1 / 100) ∧
    PerformanceAgreement.validate_weightings [kraTolerance] = true := by
  have h : |(([kraTolerance].map (fun kra => kra.weighting)).sum : ℚ) - 100|
      ≤ 1 / 100 := by
    simp only [List.map_cons, List.map_nil, List.sum_cons, List.sum_nil,
      add_zero]
    rw [show (kraTolerance.weighting - 100 : ℚ) = 1 / 100 by
      norm_num [kraTolerance]]
    rw [abs_of_pos (by norm_num)]
  exact ⟨h, validate_weightings_amended.2.2.2.2 [kraTolerance] h⟩

/-- C7: `notify_user` always appends exactly one notification row for the
given recipient to the table and returns it — also when the email send
raises, since the exception is swallowed — and the returned row has
`email_sent` true exactly when email notifications are enabled for the
recipient (defaulting to enabled when no preference row exists) and the
send succeeded. -/
theorem notify_user_spec (u : CustomUser)
    (ntype title message : String) (rot : Option String) (roid : Option Nat)
    (prefs : Option NotificationPreference) (email : EmailOutcome)
    (freshId : Nat) (db : List Notification) :
    (notify_user u ntype title message rot roid prefs email freshId db).2 =
      db ++ [(notify_user u ntype title message rot roid prefs email freshId db).1] ∧
    (notify_user u ntype title message rot roid prefs email freshId db).1.recipient = u.id ∧
    (notify_user u ntype title message rot roid prefs email freshId db).1.notification_type = ntype ∧
    (notify_user u ntype title message rot roid prefs email freshId db).1.title = title ∧
    (notify_user u ntype title message rot roid prefs email freshId db).1.message = message ∧
    ((notify_user u ntype title message rot roid prefs email freshId db).1.email_sent = true ↔
      ((prefs.map (fun p => p.email_notifications)).getD true = true ∧
        email = EmailOutcome.delivered)) := by
  cases prefs with
  | none =>
    cases email <;> simp [notify_user]
  | some p =>
    cases hp : p.email_notifications <;> cases email <;>
      simp [notify_user, hp]

/-- Head of a filtered list belongs to it and satisfies the filter. -/
theorem filter_head_mem_and_sat {α : Type} (f : α → Bool) (l : List α)
    (p : α) (rest : List α) (h : l.filter f = p :: rest) :
    f p = true := by
  have hmem : p ∈ l.filter f := by
    rw [h]
    exact List.mem_cons_self p rest
  exact List.of_mem_filter hmem


/-- C8: `get_or_create_current_plan` returns a plan of the employee in an
active status (`DRAFT` or `IN_PROGRESS`); it creates — a fresh `DRAFT`
plan supervised by the employee's manager, placed at the head of the
table — only when the employee has no active plan; and it is idempotent:
a second call returns the same plan and leaves the table unchanged. -/
theorem get_or_create_current_plan_spec (db : List ImprovementPlan)
    (employee : CustomUser) (id1 id2 : Nat) :
    ((get_or_create_current_plan db employee id1).1.employee = employee.id ∧
      ((get_or_create_current_plan db employee id1).1.status = "DRAFT" ∨
        (get_or_create_current_plan db employee id1).1.status = "IN_PROGRESS")) ∧
    (db.filter (isActivePlanFor employee) ≠ [] →
      (get_or_create_current_plan db employee id1).2 = db) ∧
    (db.filter (isActivePlanFor employee) = [] →
      (get_or_create_current_plan db employee id1).2 =
        (get_or_create_current_plan db employee id1).1 :: db ∧
      (get_or_create_current_plan db employee id1).1.status = "DRAFT" ∧
      (get_or_create_current_plan db employee id1).1.supervisor =
        employee.manager ∧
      (get_or_create_current_plan db employee id1).1.id = id1) ∧
    (get_or_create_current_plan
        (get_or_create_current_plan db employee id1).2 employee id2).1 =
      (get_or_create_current_plan db employee id1).1 ∧
    (get_or_create_current_plan
        (get_or_create_current_plan db employee id1).2 employee id2).2 =
      (get_or_create_current_plan db employee id1).2 := by
  cases hf : db.filter (isActivePlanFor employee) with
  | cons p rest =>
    have hp : isActivePlanFor employee p = true :=
      filter_head_mem_and_sat _ db p rest hf
    simp only [isActivePlanFor, Bool.and_eq_true, beq_iff_eq,
      Bool.or_eq_true] at hp
    have h1 : (get_or_create_current_plan db employee id1).1 = p := by
      simp [get_or_create_current_plan, hf]
    have h2 : (get_or_create_current_plan db employee id1).2 = db := by
      simp [get_or_create_current_plan, hf]
    rw [h1, h2]
    refine ⟨⟨hp.1, hp.2⟩, fun _ => rfl, fun hnil => List.noConfusion hnil, ?_, ?_⟩
    · simp [get_or_create_current_plan, hf]
    · simp [get_or_create_current_plan, hf]
  | nil =>
    have h1 : (get_or_create_current_plan db employee id1).1 =
        mkCurrentPlan employee id1 := by
      simp [get_or_create_current_plan, hf]
    have h2 : (get_or_create_current_plan db employee id1).2 =
        mkCurrentPlan employee id1 :: db := by
      simp [get_or_create_current_plan, hf]
    have hact : isActivePlanFor employee (mkCurrentPlan employee id1) = true := by
      simp [isActivePlanFor, mkCurrentPlan]
    have hf2 : (mkCurrentPlan employee id1 :: db).filter
        (isActivePlanFor employee) = [mkCurrentPlan employee id1] := by
      simp only [List.filter_cons, hact, if_true, hf]
    rw [h1, h2]
    refine ⟨⟨rfl, Or.inl rfl⟩, fun h => absurd rfl h, fun _ => ⟨rfl, rfl, rfl, rfl⟩, ?_, ?_⟩
    · simp [get_or_create_current_plan, hf2]
    · simp [get_or_create_current_plan, hf2]

/-- Witness for C8 on an empty table: no active plan exists, so the call
creates a draft plan for the employee, and the second call returns it
without creating another. -/
theorem get_or_create_current_plan_spec_witness :
    (([] : List ImprovementPlan).filter (isActivePlanFor empOwner) = []) ∧
    (get_or_create_current_plan [] empOwner 1).2 =
      (get_or_create_current_plan [] empOwner 1).1 :: [] ∧
    (get_or_create_current_plan
        (get_or_create_current_plan [] empOwner 1).2 empOwner 2).1 =
      (get_or_create_current_plan [] empOwner 1).1 :=
  ⟨rfl,
    ((get_or_create_current_plan_spec [] empOwner 1 2).2.2.1 rfl).1,
    (get_or_create_current_plan_spec [] empOwner 1 2).2.2.2.1⟩

/-- C1 counterexample: through the routed delete endpoint an HR requester
deletes an agreement in `PENDING_EMPLOYEE_RATING` (neither Draft nor
Rejected), and the agreement's own employee, whose role is not HR,
deletes their Draft agreement — so deletion is not refused for every
combination outside HR × Draft/Rejected. -/
theorem performance_agreement_delete_counterexample :
    hrUser.role = "HR" ∧
    aPendingER.status ≠ PerformanceAgreement.DRAFT ∧
    aPendingER.status ≠ PerformanceAgreement.REJECTED ∧
    can_delete_performance_agreement hrUser aPendingER = true ∧
    (performance_agreement_delete_pkg hrUser aPendingER true [aPendingER]).db = [] ∧
    empOwner.role ≠ "HR" ∧
    aDraft.status = PerformanceAgreement.DRAFT ∧
    can_delete_performance_agreement empOwner aDraft = true ∧
    (performance_agreement_delete_pkg empOwner aDraft true [aDraft]).db = [] := by
  decide

/-- C1 amended: deletion through the routed delete endpoint happens on
exactly the POST requests `can_delete_performance_agreement` permits — an
authenticated superuser or HR user for any agreement not `COMPLETED`, or
the agreement's own employee while it is `DRAFT`.  The rule the claim
states — requester HR and status Draft or Rejected — is exactly the model
method `can_delete` and the guard of the monolithic (shadowed, unrouted)
delete handler. -/
theorem performance_agreement_delete_amended :
    (∀ (u : CustomUser) (a : PerformanceAgreement) (isPost : Bool)
        (db : List PerformanceAgreement),
      (performance_agreement_delete_pkg u a isPost db).db =
        (if can_delete_performance_agreement u a && isPost then
          db.filter (fun row => row.id != a.id) else db)) ∧
    (∀ (u : CustomUser) (a : PerformanceAgreement),
      can_delete_performance_agreement u a = true ↔
        (u.is_authenticated = true ∧
          (((u.is_superuser = true ∨ u.role = "HR") ∧
              a.status ≠ PerformanceAgreement.COMPLETED) ∨
            (a.employee.id = u.id ∧
              a.status = PerformanceAgreement.DRAFT)))) ∧
    (∀ (u : CustomUser) (a : PerformanceAgreement),
      a.can_delete u = true ↔
        (u.role = "HR" ∧ (a.status = PerformanceAgreement.DRAFT ∨
          a.status = PerformanceAgreement.REJECTED))) ∧
    (∀ (u : CustomUser) (a : PerformanceAgreement) (isPost : Bool)
        (db : List PerformanceAgreement),
      (performance_agreement_delete_views_module u a isPost db).db =
        (if u.is_authenticated && (u.role == "HR") &&
            (a.status == PerformanceAgreement.DRAFT ||
              a.status == PerformanceAgreement.REJECTED) && isPost then
          db.filter (fun row => row.id != a.id) else db)) := by
  refine ⟨?_, ?_, ?_, ?_⟩
  · intro u a isPost db
    cases hauth : u.is_authenticated with
    | false =>
      have hcd : can_delete_performance_agreement u a = false := by
        simp [can_delete_performance_agreement, hauth]
      simp [performance_agreement_delete_pkg, hauth, hcd]
    | true =>
      cases hcd : can_delete_performance_agreement u a with
      | false => simp [performance_agreement_delete_pkg, hauth, hcd]
      | true => cases isPost <;>
          simp [performance_agreement_delete_pkg, hauth, hcd]
  · intro u a
    unfold can_delete_performance_agreement
    cases hauth : u.is_authenticated with
    | false => simp [hauth]
    | true =>
      simp only [hauth, Bool.not_true, Bool.false_eq_true, if_false, true_and]
      split_ifs with h1 h2 h3 <;>
        simp_all [Bool.and_eq_true, beq_iff_eq, bne_iff_ne] <;> tauto
  · intro u a
    simp [PerformanceAgreement.can_delete]
  · intro u a isPost db
    cases hauth : u.is_authenticated with
    | false => simp [performance_agreement_delete_views_module, hauth]
    | true =>
      by_cases hrole : u.role = "HR"
      · by_cases hst : a.status = PerformanceAgreement.DRAFT ∨
            a.status = PerformanceAgreement.REJECTED
        · rcases hst with h | h <;> cases isPost <;>
            simp [performance_agreement_delete_views_module, hauth, hrole, h,
              PerformanceAgreement.DRAFT, PerformanceAgreement.REJECTED]
        · push_neg at hst
          simp [performance_agreement_delete_views_module, hauth, hrole,
            hst.1, hst.2]
      · simp [performance_agreement_delete_views_module, hauth, hrole]

/-- An authenticated employee may update their own Draft agreement, so
the submit decorator lets them through. -/
theorem can_update_of_owner_draft (u : CustomUser) (a : PerformanceAgreement)
    (hauth : u.is_authenticated = true) (hown : a.employee.id = u.id)
    (hdraft : a.status = PerformanceAgreement.DRAFT) :
    can_update_performance_agreement u a = true := by
  unfold can_update_performance_agreement
  rw [hauth]
  cases hs : u.is_superuser with
  | true => simp [hs]
  | false =>
    cases hr : u.role == CustomUser.HR with
    | true => simp [hs, hr]
    | false => simp [hs, hr, hown, hdraft]

/-- C2 counterexample: on the same Draft agreement, with its owner
invoking them, the monolithic submit handler and the package submit
handler produce the SAME stored state — the agreement unchanged, still in
DRAFT — because each raises `AttributeError` on its undefined status
constant; neither produces an intermediate state for the two copies to
disagree on. -/
theorem submit_copies_counterexample :
    aDraft.status = PerformanceAgreement.DRAFT ∧
    (performance_agreement_submit_views_module PerformanceAgreement.classAttr
        empOwner aDraft true 0).response =
      HttpResponse.attributeError "PENDING_AGREEMENT" ∧
    (performance_agreement_submit_pkg PerformanceAgreement.classAttr
        empOwner aDraft 0).response =
      HttpResponse.attributeError "PENDING_SUPERVISOR_REVIEW" ∧
    (performance_agreement_submit_views_module PerformanceAgreement.classAttr
        empOwner aDraft true 0).agreement =
      (performance_agreement_submit_pkg PerformanceAgreement.classAttr
        empOwner aDraft 0).agreement ∧
    (performance_agreement_submit_views_module PerformanceAgreement.classAttr
        empOwner aDraft true 0).agreement.status =
      PerformanceAgreement.DRAFT := by
  decide

/-- C2 amended: the two submit copies are textually divergent — the
monolithic handler assigns `status` from the class attribute named
PENDING_AGREEMENT and the package handler from the one named
PENDING_SUPERVISOR_REVIEW, and under any class-attribute environment
giving those names distinct values they would move the same Draft
agreement to distinct intermediate statuses — but neither name is defined
on the model, so under the actual attribute environment both copies raise
`AttributeError` and produce the same unchanged state rather than
disagreeing intermediate states. -/
theorem submit_copies_amended (env : String → Option String)
    (u : CustomUser) (a : PerformanceAgreement) (now : Nat) (x y : String)
    (hauth : u.is_authenticated = true) (hown : a.employee.id = u.id)
    (hdraft : a.status = PerformanceAgreement.DRAFT)
    (hx : env "PENDING_AGREEMENT" = some x)
    (hy : env "PENDING_SUPERVISOR_REVIEW" = some y) (hxy : x ≠ y) :
    ((performance_agreement_submit_views_module env u a true now).agreement.status = x ∧
      (performance_agreement_submit_pkg env u a now).agreement.status = y ∧
      (performance_agreement_submit_views_module env u a true now).agreement.status ≠
        (performance_agreement_submit_pkg env u a now).agreement.status) ∧
    PerformanceAgreement.classAttr "PENDING_AGREEMENT" = none ∧
    PerformanceAgreement.classAttr "PENDING_SUPERVISOR_REVIEW" = none ∧
    (performance_agreement_submit_views_module PerformanceAgreement.classAttr
        u a true now).response = HttpResponse.attributeError "PENDING_AGREEMENT" ∧
    (performance_agreement_submit_pkg PerformanceAgreement.classAttr
        u a now).response = HttpResponse.attributeError "PENDING_SUPERVISOR_REVIEW" ∧
    (performance_agreement_submit_views_module PerformanceAgreement.classAttr
        u a true now).agreement = a ∧
    (performance_agreement_submit_pkg PerformanceAgreement.classAttr
        u a now).agreement = a := by
  have hcu : can_update_performance_agreement u a = true :=
    can_update_of_owner_draft u a hauth hown hdraft
  have hA : PerformanceAgreement.classAttr "PENDING_AGREEMENT" = none := by
    decide
  have hSR : PerformanceAgreement.classAttr "PENDING_SUPERVISOR_REVIEW" = none := by
    decide
  have hmx : (performance_agreement_submit_views_module env u a true now).agreement.status = x := by
    simp [performance_agreement_submit_views_module, hauth, hown, hx]
  have hpy : (performance_agreement_submit_pkg env u a now).agreement.status = y := by
    simp [performance_agreement_submit_pkg, hauth, hcu, hdraft,
      PerformanceAgreement.DRAFT, hy]
  refine ⟨⟨hmx, hpy, ?_⟩, hA, hSR, ?_, ?_, ?_, ?_⟩
  · rw [hmx, hpy]
    exact hxy
  · simp [performance_agreement_submit_views_module, hauth, hown, hA]
  · simp [performance_agreement_submit_pkg, hauth, hcu, hdraft,
      PerformanceAgreement.DRAFT, hSR]
  · simp [performance_agreement_submit_views_module, hauth, hown, hA]
  · simp [performance_agreement_submit_pkg, hauth, hcu, hdraft,
      PerformanceAgreement.DRAFT, hSR]

/-- Witness for the amended C2: the owner submits the Draft agreement
under an environment defining both names with their own distinct
spellings as values. -/
theorem submit_copies_amended_witness :
    empOwner.is_authenticated = true ∧
    aDraft.employee.id = empOwner.id ∧
    aDraft.status = PerformanceAgreement.DRAFT ∧
    env0 "PENDING_AGREEMENT" = some "PENDING_AGREEMENT" ∧
    env0 "PENDING_SUPERVISOR_REVIEW" = some "PENDING_SUPERVISOR_REVIEW" ∧
    (performance_agreement_submit_views_module env0
        empOwner aDraft true 0).agreement.status = "PENDING_AGREEMENT" ∧
    (performance_agreement_submit_pkg env0
        empOwner aDraft 0).agreement.status = "PENDING_SUPERVISOR_REVIEW" :=
  ⟨rfl, rfl, rfl, rfl, rfl,
    (submit_copies_amended env0 empOwner aDraft 0 "PENDING_AGREEMENT"
      "PENDING_SUPERVISOR_REVIEW" rfl rfl rfl rfl rfl (by decide)).1.1,
    (submit_copies_amended env0 empOwner aDraft 0 "PENDING_AGREEMENT"
      "PENDING_SUPERVISOR_REVIEW" rfl rfl rfl rfl rfl (by decide)).1.2.1⟩

/-- C3: for every Draft agreement, both submit endpoints leave the stored
row — status and every timestamp — unchanged under the actual model
attributes, because neither PENDING_AGREEMENT (monolithic handler) nor
PENDING_SUPERVISOR_REVIEW (package handler) is a defined status constant;
whenever the handlers' own guards pass (POST by the owner for the
monolithic one, an actor the update permission admits for the package
one) the request ends in `AttributeError`, raised before the save, so no
Draft agreement ever leaves DRAFT through a submit endpoint. -/
theorem submit_attribute_error_spec (u : CustomUser)
    (a : PerformanceAgreement) (post : Bool) (now : Nat)
    (hdraft : a.status = PerformanceAgreement.DRAFT) :
    PerformanceAgreement.classAttr "PENDING_AGREEMENT" = none ∧
    PerformanceAgreement.classAttr "PENDING_SUPERVISOR_REVIEW" = none ∧
    (performance_agreement_submit_views_module PerformanceAgreement.classAttr
        u a post now).agreement = a ∧
    (performance_agreement_submit_pkg PerformanceAgreement.classAttr
        u a now).agreement = a ∧
    (u.is_authenticated = true → post = true → a.employee.id = u.id →
      (performance_agreement_submit_views_module PerformanceAgreement.classAttr
        u a post now).response = HttpResponse.attributeError "PENDING_AGREEMENT") ∧
    (u.is_authenticated = true → can_update_performance_agreement u a = true →
      (performance_agreement_submit_pkg PerformanceAgreement.classAttr
        u a now).response = HttpResponse.attributeError "PENDING_SUPERVISOR_REVIEW") := by
  have hA : PerformanceAgreement.classAttr "PENDING_AGREEMENT" = none := by
    decide
  have hSR : PerformanceAgreement.classAttr "PENDING_SUPERVISOR_REVIEW" = none := by
    decide
  refine ⟨hA, hSR, ?_, ?_, ?_, ?_⟩
  · cases hauth : u.is_authenticated with
    | false => simp [performance_agreement_submit_views_module, hauth]
    | true =>
      cases post with
      | false => simp [performance_agreement_submit_views_module, hauth]
      | true =>
        by_cases hown : a.employee.id = u.id
        · simp [performance_agreement_submit_views_module, hauth, hown, hA]
        · simp [performance_agreement_submit_views_module, hauth, hown]
  · cases hauth : u.is_authenticated with
    | false => simp [performance_agreement_submit_pkg, hauth]
    | true =>
      cases hcu : can_update_performance_agreement u a with
      | false => simp [performance_agreement_submit_pkg, hauth, hcu]
      | true =>
        simp [performance_agreement_submit_pkg, hauth, hcu, hdraft,
          PerformanceAgreement.DRAFT, hSR]
  · intro hauth hpost hown
    subst hpost
    simp [performance_agreement_submit_views_module, hauth, hown, hA]
  · intro hauth hcu
    simp [performance_agreement_submit_pkg, hauth, hcu, hdraft,
      PerformanceAgreement.DRAFT, hSR]

/-- Witness for C3: the owner of the sample Draft agreement POSTs to both
submit endpoints. -/
theorem submit_attribute_error_spec_witness :
    aDraft.status = PerformanceAgreement.DRAFT ∧
    (performance_agreement_submit_views_module PerformanceAgreement.classAttr
        empOwner aDraft true 0).agreement = aDraft ∧
    (performance_agreement_submit_pkg PerformanceAgreement.classAttr
        empOwner aDraft 0).response =
      HttpResponse.attributeError "PENDING_SUPERVISOR_REVIEW" :=
  ⟨rfl,
    (submit_attribute_error_spec empOwner aDraft true 0 rfl).2.2.1,
    (submit_attribute_error_spec empOwner aDraft true 0 rfl).2.2.2.2.2
      rfl (by decide)⟩

/-- C9 counterexample: two wrong-actor/wrong-state workflow invocations
that do NOT end in a flash message plus redirect.  The supervisor invokes
approve on an agreement in `PENDING_SUPERVISOR_RATING` (passing the
update permission) and gets an uncaught `AttributeError` — a hard error —
from the undefined PENDING_SUPERVISOR_REVIEW constant; an unrelated
employee invoking approve is stopped by the decorator with a hard
`PermissionDenied`.  The agreement is left unchanged in both cases. -/
theorem approve_flash_counterexample :
    can_update_performance_agreement supUser aPSR = true ∧
    isSupervisorOf supUser aPSR = true ∧
    aPSR.status ≠ PerformanceAgreement.PENDING_MANAGER_APPROVAL ∧
    (performance_agreement_approve_pkg PerformanceAgreement.classAttr
        supUser aPSR 0).response =
      HttpResponse.attributeError "PENDING_SUPERVISOR_REVIEW" ∧
    (performance_agreement_approve_pkg PerformanceAgreement.classAttr
        supUser aPSR 0).agreement = aPSR ∧
    can_update_performance_agreement otherUser aPSR = false ∧
    (performance_agreement_approve_pkg PerformanceAgreement.classAttr
        otherUser aPSR 0).response = HttpResponse.permissionDenied "update" := by
  decide

/-- C9 amended: wrong-actor/wrong-state invocations of the approve and
submit transitions always leave the agreement's stored fields unchanged,
but they are not all reported via a flash message and redirect: an actor
who fails the update permission gets a hard `PermissionDenied` from the
guarding decorator, and the agreement's supervisor invoking approve gets
a hard `AttributeError` from the undefined PENDING_SUPERVISOR_REVIEW
constant; the remaining failing invocations that reach the handler bodies
get the error flash and the redirect back to the detail page. -/
theorem approve_flash_amended (u : CustomUser) (a : PerformanceAgreement)
    (now : Nat) (hauth : u.is_authenticated = true) :
    (¬ (isSupervisorOf u a = false ∧
          (isApproverOf u a = true ∨ u.role = CustomUser.HR) ∧
          a.status = PerformanceAgreement.PENDING_MANAGER_APPROVAL) →
      (performance_agreement_approve_pkg PerformanceAgreement.classAttr
        u a now).agreement = a) ∧
    (can_update_performance_agreement u a = false →
      (performance_agreement_approve_pkg PerformanceAgreement.classAttr
        u a now).response = HttpResponse.permissionDenied "update") ∧
    (can_update_performance_agreement u a = true →
      isSupervisorOf u a = true →
      (performance_agreement_approve_pkg PerformanceAgreement.classAttr
        u a now).response =
        HttpResponse.attributeError "PENDING_SUPERVISOR_REVIEW") ∧
    (can_update_performance_agreement u a = true →
      isSupervisorOf u a = false →
      ¬ ((isApproverOf u a = true ∨ u.role = CustomUser.HR) ∧
          a.status = PerformanceAgreement.PENDING_MANAGER_APPROVAL) →
      (performance_agreement_approve_pkg PerformanceAgreement.classAttr
          u a now).response = HttpResponse.redirect "performance_agreement_detail" ∧
      (performance_agreement_approve_pkg PerformanceAgreement.classAttr
          u a now).flashes =
        [("error", "You are not authorized to approve this performance agreement.")] ∧
      (performance_agreement_approve_pkg PerformanceAgreement.classAttr
          u a now).agreement = a) ∧
    (a.status ≠ PerformanceAgreement.DRAFT →
      (performance_agreement_submit_pkg PerformanceAgreement.classAttr
        u a now).agreement = a ∧
      (can_update_performance_agreement u a = false →
        (performance_agreement_submit_pkg PerformanceAgreement.classAttr
          u a now).response = HttpResponse.permissionDenied "update") ∧
      (can_update_performance_agreement u a = true →
        (performance_agreement_submit_pkg PerformanceAgreement.classAttr
            u a now).response = HttpResponse.redirect "performance_agreement_detail" ∧
        (performance_agreement_submit_pkg PerformanceAgreement.classAttr
            u a now).flashes =
          [("error", "This performance agreement cannot be submitted because it is not in draft status.")])) := by
  have hSR : PerformanceAgreement.classAttr "PENDING_SUPERVISOR_REVIEW" = none := by
    decide
  refine ⟨?_, ?_, ?_, ?_, ?_⟩
  · intro hn
    cases hcu : can_update_performance_agreement u a with
    | false => simp [performance_agreement_approve_pkg, hauth, hcu]
    | true =>
      cases hsup : isSupervisorOf u a with
      | true => simp [performance_agreement_approve_pkg, hauth, hcu, hsup, hSR]
      | false =>
        by_cases hcond : ((isApproverOf u a || u.role == CustomUser.HR) &&
            a.status == PerformanceAgreement.PENDING_MANAGER_APPROVAL) = true
        · rw [Bool.and_eq_true, Bool.or_eq_true, beq_iff_eq, beq_iff_eq] at hcond
          exact absurd ⟨hsup, hcond.1, hcond.2⟩ hn
        · rw [Bool.not_eq_true] at hcond
          simp [performance_agreement_approve_pkg, hauth, hcu, hsup, hcond]
  · intro hcu
    simp [performance_agreement_approve_pkg, hauth, hcu]
  · intro hcu hsup
    simp [performance_agreement_approve_pkg, hauth, hcu, hsup, hSR]
  · intro hcu hsup hn
    have hcond : ((isApproverOf u a || u.role == CustomUser.HR) &&
        a.status == PerformanceAgreement.PENDING_MANAGER_APPROVAL) = false := by
      cases hc : ((isApproverOf u a || u.role == CustomUser.HR) &&
          a.status == PerformanceAgreement.PENDING_MANAGER_APPROVAL) with
      | false => rfl
      | true =>
        rw [Bool.and_eq_true, Bool.or_eq_true, beq_iff_eq, beq_iff_eq] at hc
        exact absurd ⟨hc.1, hc.2⟩ hn
    simp [performance_agreement_approve_pkg, hauth, hcu, hsup, hcond]
  · intro hnd
    refine ⟨?_, ?_, ?_⟩
    · cases hcu : can_update_performance_agreement u a with
      | false => simp [performance_agreement_submit_pkg, hauth, hcu]
      | true => simp [performance_agreement_submit_pkg, hauth, hcu, bne_iff_ne, hnd]
    · intro hcu
      simp [performance_agreement_submit_pkg, hauth, hcu]
    · intro hcu
      simp [performance_agreement_submit_pkg, hauth, hcu, bne_iff_ne, hnd]

/-- Witness for the amended C9: an HR user invokes approve on an
agreement in `PENDING_EMPLOYEE_RATING` — a wrong-state invocation that
reaches the handler body away from the supervisor branch — and gets the
error flash plus the redirect to the detail page, the agreement left
unchanged. -/
theorem approve_flash_amended_witness :
    hrUser.is_authenticated = true ∧
    can_update_performance_agreement hrUser aPendingER = true ∧
    isSupervisorOf hrUser aPendingER = false ∧
    (performance_agreement_approve_pkg PerformanceAgreement.classAttr
        hrUser aPendingER 0).response =
      HttpResponse.redirect "performance_agreement_detail" ∧
    (performance_agreement_approve_pkg PerformanceAgreement.classAttr
        hrUser aPendingER 0).flashes =
      [("error", "You are not authorized to approve this performance agreement.")] ∧
    (performance_agreement_approve_pkg PerformanceAgreement.classAttr
        hrUser aPendingER 0).agreement = aPendingER := by
  have h := (approve_flash_amended hrUser aPendingER 0 rfl).2.2.2.1
    (by decide) (by decide) (by decide)
  exact ⟨rfl, by decide, by decide, h.1, h.2.1, h.2.2⟩
